import Mathlib

/-!
Shallow embedding of the litchitool core (VolaTeQ/litchitool) in Lean 4:
`src/litchitool/src/mission.rs` (data model, validating constructor, binary
encoder) and `src/litchitool/src/csv_format.rs` (row ingestion).

Modelling choices:
* Rust `f32`/`f64` values are modelled as exact rationals `ℚ` (IEEE rounding,
  NaN and infinities are outside the model); `i16`/`i32` as `Int`,
  `usize` as `Nat`.
* The `usize` subtraction `pois.len() - 2` in `read_from_csv` is embedded as
  checked subtraction: its underflow (a Rust debug-build panic at
  csv_format.rs:119) surfaces as the distinct error `subtractOverflow`.
* A CSV field is modelled by the outcome of parsing its text at each of the
  four numeric types the ingestion uses (`f64`, `f32`, `i32`, `i16`): the
  ingestion never re-parses one index at two types, so this captures every
  reachable behaviour of `str::parse` without modelling strings.
* `Coordinate::heading_towards` (great-circle initial bearing) is called by
  the ingestion but its body is not part of the sources; ingestion is
  parameterized over a bearing function `hdg` standing for it.
-/

namespace Litchi

/-- Cardinal coordinates (latitude, longitude), `Coordinate` in mission.rs. -/
structure Coordinate where
  lat : ℚ
  lon : ℚ
deriving DecidableEq, Repr

/-- `Action` in mission.rs. -/
inductive Action where
  | StayFor (seconds : ℚ)
  | TakePhoto
  | StartRecording
  | StopRecording
  | RotateAircraft (rotation : Int)
  | TiltCamera (tilt : Int)
deriving DecidableEq, Repr

/-- `PhotoInterval` in mission.rs. -/
inductive PhotoInterval where
  | Time (seconds : ℚ)
  | Distance (meters : ℚ)
deriving DecidableEq, Repr

/-- `HeadingMode` in mission.rs, `#[repr(i32)]`, discriminants 0.. -/
inductive HeadingMode where
  | Auto | Initial | Manual | Custom
deriving DecidableEq, Repr

/-- `FinishAction` in mission.rs, `#[repr(i32)]`, discriminants 0.. -/
inductive FinishAction where
  | None | Rth | Land | BackToFirst | Reverse
deriving DecidableEq, Repr

/-- `PathMode` in mission.rs, `#[repr(i32)]`, discriminants 0.. -/
inductive PathMode where
  | StraightLines | CurvedTurns
deriving DecidableEq, Repr

/-- `GimbalPitchMode` in mission.rs, `#[repr(i32)]`, discriminants 0.. -/
inductive GimbalPitchMode where
  | Disabled | FocusPOI | Interpolate
deriving DecidableEq, Repr

/-- `AltitudeMode` in mission.rs, `#[repr(i16)]`, discriminants 0.. -/
inductive AltitudeMode where
  | Absolute | AboveGround
deriving DecidableEq, Repr

/-- `as i32` discriminant of `HeadingMode`. -/
def HeadingMode.code : HeadingMode → Int
  | .Auto => 0 | .Initial => 1 | .Manual => 2 | .Custom => 3

/-- `as i32` discriminant of `FinishAction`. -/
def FinishAction.code : FinishAction → Int
  | .None => 0 | .Rth => 1 | .Land => 2 | .BackToFirst => 3 | .Reverse => 4

/-- `as i32` discriminant of `PathMode`. -/
def PathMode.code : PathMode → Int
  | .StraightLines => 0 | .CurvedTurns => 1

/-- `as i32` discriminant of `GimbalPitchMode`. -/
def GimbalPitchMode.code : GimbalPitchMode → Int
  | .Disabled => 0 | .FocusPOI => 1 | .Interpolate => 2

/-- `as i16` discriminant of `AltitudeMode`. -/
def AltitudeMode.code : AltitudeMode → Int
  | .Absolute => 0 | .AboveGround => 1

/-- `GimbalPitchMode::try_from` derived by `TryFromPrimitive`. -/
def GimbalPitchMode.tryFrom : Int → Option GimbalPitchMode
  | 0 => some .Disabled
  | 1 => some .FocusPOI
  | 2 => some .Interpolate
  | _ => none

/-- `AltitudeMode::try_from` derived by `TryFromPrimitive`. -/
def AltitudeMode.tryFrom : Int → Option AltitudeMode
  | 0 => some .Absolute
  | 1 => some .AboveGround
  | _ => none

/-- `Waypoint` in mission.rs (field names kept). -/
structure Waypoint where
  coordinates : Coordinate
  altitude : ℚ
  heading : ℚ
  curve_size : ℚ
  rotation_dir : Int
  gimbal_mode : GimbalPitchMode
  gimbal_pitch_angle : Int
  altitude_mode : AltitudeMode
  speed : ℚ
  poi_index : Option Nat
  actions : List Action
  photo_interval : Option PhotoInterval
  turn_mode : Int
  stay_time : Int
  max_reach_time : Int
  repeat_actions : Int
deriving DecidableEq, Repr

/-- `POI` in mission.rs. `PartialEq` is derived over all four fields.
(csv_format.rs refers to the latitude/longitude pair as the POI coordinate.) -/
structure POI where
  latitude : ℚ
  longitude : ℚ
  altitude : ℚ
  altitude_mode : AltitudeMode
deriving DecidableEq, Repr

/-- `MissionConfig` in mission.rs. -/
structure MissionConfig where
  heading_mode : HeadingMode
  finish_action : FinishAction
  path_mode : PathMode
  cruising_speed : ℚ
  rc_speed : ℚ
  n_repeat : Int
  version : Int
  photo_interval : Option PhotoInterval
deriving DecidableEq, Repr

/-- `MissionConfig::default` in mission.rs. -/
def MissionConfig.default : MissionConfig where
  heading_mode := .Manual
  finish_action := .Rth
  path_mode := .StraightLines
  cruising_speed := 8
  rc_speed := 14
  n_repeat := 1
  version := 11
  photo_interval := none

/-- `LitchiMission` in mission.rs. -/
structure LitchiMission where
  waypoints : List Waypoint
  pois : List POI
  config : MissionConfig
deriving DecidableEq, Repr

/-- `LitchiError` in error.rs (variants the embedded core can produce; the
csv-reader IO error is out of scope).  `subtractOverflow` stands for the
Rust panic `attempt to subtract with overflow` raised by checked `usize`
arithmetic. -/
inductive LitchiError where
  | IncorrectRecordLength (actual expected : Nat)
  | CsvMissingField (idx : Nat)
  | ParseFloatError (idx : Nat)
  | ParseIntError (idx : Nat)
  | InvalidActionType (n : Int)
  | TryFromPrimitiveError (s : String)
  | InvalidMission
  | subtractOverflow
deriving DecidableEq, Repr

/-- `LitchiMission::validate` in mission.rs: every present `poi_index` must be
in range of the POI list. -/
def LitchiMission.validate (m : LitchiMission) : Bool :=
  m.waypoints.all fun waypoint =>
    match waypoint.poi_index with
    | some index => decide (index < m.pois.length)
    | none => true

/-- `LitchiMission::new` in mission.rs. -/
def LitchiMission.new (waypoints : List Waypoint) (pois : List POI)
    (config : MissionConfig) : Except LitchiError LitchiMission :=
  let m : LitchiMission := ⟨waypoints, pois, config⟩
  if m.validate then .ok m else .error .InvalidMission

/-! ## Row ingestion (`csv_format.rs::read_from_csv`) -/

/-- One CSV field, modelled by the outcomes of `str::parse` at the four
numeric types the ingestion uses.  `none` means the parse of the field's
text at that type fails. -/
structure Field where
  f64 : Option ℚ
  f32 : Option ℚ
  i32 : Option Int
  i16 : Option Int
deriving DecidableEq, Repr

/-- `record.get(idx).ok_or(LitchiError::CsvMissingField(idx))?`. -/
def getField (record : List Field) (idx : Nat) : Except LitchiError Field :=
  match record.get? idx with
  | some f => .ok f
  | none => .error (.CsvMissingField idx)

/-- `parse_chunk!` at type `f64`: fetch field `idx` and parse it. -/
def pF64 (record : List Field) (idx : Nat) : Except LitchiError ℚ := do
  match (← getField record idx).f64 with
  | some q => .ok q
  | none => .error (.ParseFloatError idx)

/-- `parse_chunk!` at type `f32`. -/
def pF32 (record : List Field) (idx : Nat) : Except LitchiError ℚ := do
  match (← getField record idx).f32 with
  | some q => .ok q
  | none => .error (.ParseFloatError idx)

/-- `parse_chunk!` at type `i32`. -/
def pI32 (record : List Field) (idx : Nat) : Except LitchiError Int := do
  match (← getField record idx).i32 with
  | some n => .ok n
  | none => .error (.ParseIntError idx)

/-- `parse_chunk!` at type `i16`. -/
def pI16 (record : List Field) (idx : Nat) : Except LitchiError Int := do
  match (← getField record idx).i16 with
  | some n => .ok n
  | none => .error (.ParseIntError idx)

/-- `GimbalPitchMode::try_from(..).map_err(.. TryFromPrimitiveError ..)?`. -/
def tryGimbal (n : Int) : Except LitchiError GimbalPitchMode :=
  match GimbalPitchMode.tryFrom n with
  | some g => .ok g
  | none => .error (.TryFromPrimitiveError (toString n))

/-- `AltitudeMode::try_from(..).map_err(.. TryFromPrimitiveError ..)?`. -/
def tryAltitude (n : Int) : Except LitchiError AltitudeMode :=
  match AltitudeMode.tryFrom n with
  | some a => .ok a
  | none => .error (.TryFromPrimitiveError (toString n))

/-- The `match action_type` arms in `read_from_csv` (csv_format.rs:75-84):
`-1` is the no-action sentinel, `0..=5` decode to the six actions
(`StayFor` dividing the millisecond param by 1000), anything else is an
`InvalidActionType` error. -/
def actionFromCode (action_type action_param : Int) :
    Except LitchiError (Option Action) :=
  if action_type = -1 then .ok none
  else if action_type = 0 then .ok (some (.StayFor (action_param / 1000)))
  else if action_type = 1 then .ok (some .TakePhoto)
  else if action_type = 2 then .ok (some .StartRecording)
  else if action_type = 3 then .ok (some .StopRecording)
  else if action_type = 4 then .ok (some (.RotateAircraft action_param))
  else if action_type = 5 then .ok (some (.TiltCamera action_param))
  else .error (.InvalidActionType action_type)

/-- One action slot: parse the `(type, param)` field pair at slot
`action_i` and decode it (csv_format.rs:68-84). -/
def decodeSlot (record : List Field) (action_i : Nat) :
    Except LitchiError (Option Action) := do
  let action_type ← pI32 record (8 + action_i * 2)
  let action_param ← pI32 record (8 + 1 + action_i * 2)
  actionFromCode action_type action_param

/-- The action pipeline of `read_from_csv` (csv_format.rs:68-91): decode the
15 slots in order and drop the sentinels; the first error in slot order
aborts (`collect::<Result<Vec<_>, _>>` short-circuits, and the
`filter_map` keeps every error). -/
def decodeActions (record : List Field) : Except LitchiError (List Action) := do
  let opts ← (List.range 15).mapM (decodeSlot record)
  .ok (opts.filterMap id)

/-- `Iterator::position` over the collected POIs (csv_format.rs:115-116):
index of the first POI equal to `poi`, by full value equality. -/
def position (poi : POI) : List POI → Option Nat
  | [] => none
  | q :: rest => if poi = q then some 0 else (position poi rest).map (· + 1)

/-- Checked `usize` subtraction: Rust's `a - b` panics when `b > a`. -/
def checkedSub (a b : Nat) : Option Nat :=
  if b ≤ a then some (a - b) else none

/-- The body of the row loop of `read_from_csv` (csv_format.rs:30-142),
processing one record against the POIs collected so far and returning the
new waypoint together with the updated POI list.  `hdg` stands for
`Coordinate::heading_towards`, whose body is outside the sources. -/
def parseRow (hdg : Coordinate → Coordinate → ℚ) (pois : List POI)
    (record : List Field) : Except LitchiError (Waypoint × List POI) :=
  if record.length ≠ 46 then
    .error (.IncorrectRecordLength record.length 46)
  else do
    let latitude ← pF64 record 0
    let longitude ← pF64 record 1
    let altitude ← pF32 record 2
    let heading0 ← pF32 record 3
    let curve_size ← pF32 record 4
    let rotation_dir ← pI32 record 5
    let gimbal_mode_raw ← pI32 record 6
    let gimbal_pitch_angle ← pI32 record 7
    let altitude_mode_raw ← pI16 record 38
    let speed ← pF32 record 39
    let poi_latitude ← pF64 record 40
    let poi_longitude ← pF64 record 41
    let poi_altitude ← pF32 record 42
    let poi_altitude_mode_raw ← pI16 record 43
    let photo_time_interval0 ← pF32 record 44
    let photo_distance_interval0 ← pF32 record 45
    let gimbal_mode ← tryGimbal gimbal_mode_raw
    let altitude_mode ← tryAltitude altitude_mode_raw
    let photo_time_interval :=
      (some photo_time_interval0).filter (fun interval => interval > 0)
    let photo_distance_interval :=
      (some photo_distance_interval0).filter (fun interval => interval > 0)
    let actions ← decodeActions record
    let poi_altitude_mode ← tryAltitude poi_altitude_mode_raw
    let poi : Option POI :=
      if poi_longitude ≠ 0 ∧ poi_latitude ≠ 0 ∧ poi_altitude ≠ 0 then
        some ⟨poi_latitude, poi_longitude, poi_altitude, poi_altitude_mode⟩
      else none
    let coordinates : Coordinate := ⟨latitude, longitude⟩
    let heading : ℚ :=
      match poi with
      | some p => hdg coordinates ⟨p.latitude, p.longitude⟩
      | none => heading0
    let idxAndPois : Except LitchiError (Option Nat × List POI) :=
      match poi with
      | none => .ok (none, pois)
      | some p =>
        match position p pois with
        | some i => .ok (some i, pois)
        | none =>
          let pois2 := pois ++ [p]
          match checkedSub pois2.length 2 with
          | some i => .ok (some i, pois2)
          | none => .error .subtractOverflow
    let (poi_index, pois') ← idxAndPois
    .ok (⟨coordinates, altitude, heading, curve_size, rotation_dir,
          gimbal_mode, gimbal_pitch_angle, altitude_mode, speed, poi_index,
          actions,
          (photo_time_interval.map PhotoInterval.Time).orElse
            (fun _ => photo_distance_interval.map PhotoInterval.Distance),
          0, 3, 0, 1⟩, pois')

/-- The record loop of `read_from_csv`, threading the waypoint and POI
accumulators. -/
def goRows (hdg : Coordinate → Coordinate → ℚ) :
    List (List Field) → List Waypoint → List POI →
    Except LitchiError (List Waypoint × List POI)
  | [], waypoints, pois => .ok (waypoints, pois)
  | record :: rest, waypoints, pois => do
    let (w, pois') ← parseRow hdg pois record
    goRows hdg rest (waypoints ++ [w]) pois'

/-- `read_from_csv` (csv_format.rs:23-146): ingest the record sequence and
construct the mission with the default configuration. -/
def read_from_csv (hdg : Coordinate → Coordinate → ℚ)
    (records : List (List Field)) : Except LitchiError LitchiMission := do
  let (waypoints, pois) ← goRows hdg records [] []
  LitchiMission.new waypoints pois MissionConfig.default

/-! ## Binary encoder (`mission.rs::LitchiMission::to_binary`) -/

/-- One `put_*` call on the output buffer: the encoded byte stream is
modelled as the sequence of typed values written, in order (`pad n` is
`put_slice` of `n` zero bytes). -/
inductive BinItem where
  | i32 (n : Int)
  | i16 (n : Int)
  | f32 (x : ℚ)
  | f64 (x : ℚ)
  | pad (n : Nat)
deriving DecidableEq, Repr

/-- Rust `f32::clamp(lo, hi)` on ordered values (NaN is outside the model):
below `lo` gives `lo`, above `hi` gives `hi`, otherwise the value itself. -/
def ratClamp (x lo hi : ℚ) : ℚ :=
  if x < lo then lo else if x > hi then hi else x

/-- Saturating cast `Int → i32` (the integer part of Rust's `as i32` float
cast). -/
def i32Sat (n : Int) : Int :=
  if n < -(2 ^ 31) then -(2 ^ 31)
  else if n > 2 ^ 31 - 1 then 2 ^ 31 - 1
  else n

/-- Rust `as i32` on an exact float value: truncate toward zero, then
saturate to the `i32` range. -/
def truncToI32 (q : ℚ) : Int :=
  i32Sat (if 0 ≤ q then ⌊q⌋ else ⌈q⌉)

/-- `Action::idx_and_param` (mission.rs:315-326): the `(code, param)` pair
written for each action; `StayFor` re-encodes its seconds as
`(stay * 1000.) as i32`.  Model caveat: the source computes `stay * 1000.`
in `f32`, which rounds the product; here the product is exact, so
statements that depend on that rounding must be confined to inputs on
which the `f32` product is exact. -/
def Action.idx_and_param : Action → Int × Int
  | .StayFor stay => (0, truncToI32 (stay * 1000))
  | .TakePhoto => (1, 0)
  | .StartRecording => (2, 0)
  | .StopRecording => (3, 0)
  | .RotateAircraft rotation => (4, rotation)
  | .TiltCamera tilt => (5, tilt)

/-- The per-waypoint block of pass 3 (mission.rs:197-223). -/
def encodeWaypoint (w : Waypoint) : List BinItem :=
  [.f32 w.altitude, .i32 w.turn_mode, .f32 w.heading, .f32 w.speed,
   .i16 w.stay_time, .i16 w.max_reach_time, .f64 w.coordinates.lat,
   .f64 w.coordinates.lon, .f32 w.curve_size, .i32 w.gimbal_mode.code,
   .i32 w.gimbal_pitch_angle, .i32 w.actions.length, .i32 w.repeat_actions]
  ++ (w.actions.map fun a =>
        [BinItem.i32 a.idx_and_param.1, BinItem.i32 a.idx_and_param.2]).flatten

/-- The `set_interval` closure (mission.rs:263-279): a photo interval as a
pair of `f32` values, `-1.` marking the absent half. -/
def encodeInterval : Option PhotoInterval → List BinItem
  | some (.Time time) => [.f32 time, .f32 (-1)]
  | some (.Distance distance) => [.f32 (-1), .f32 distance]
  | none => [.f32 (-1), .f32 (-1)]

/-- `LitchiMission::to_binary` (mission.rs:165-288).  List lengths are cast
`Nat → Int` directly: the `try_into().expect(..)` calls only panic for
lengths of at least 2^31, unreachable for any input considered here. -/
def LitchiMission.to_binary (m : LitchiMission) : List BinItem :=
  [.i32 1818454125,
   .i32 m.config.heading_mode.code,
   .i32 m.config.finish_action.code,
   .i32 m.config.path_mode.code,
   .f32 (ratClamp m.config.cruising_speed (-15) 15),
   .f32 (ratClamp m.config.rc_speed 2 15),
   .i32 m.config.n_repeat,
   .i16 11,
   .pad 10,
   .i32 m.waypoints.length]
  ++ (m.waypoints.map encodeWaypoint).flatten
  ++ [.i32 m.pois.length]
  ++ (m.pois.map fun poi =>
        [BinItem.f64 poi.latitude, BinItem.f64 poi.longitude,
         BinItem.f32 poi.altitude]).flatten
  ++ (m.waypoints.map fun w =>
        [BinItem.i16 w.altitude_mode.code, BinItem.f32 w.altitude,
         BinItem.i32 (match w.poi_index with
                      | some index => (index : Int)
                      | none => -1)]).flatten
  ++ (m.pois.map fun poi =>
        [BinItem.i16 poi.altitude_mode.code, BinItem.f32 poi.altitude]).flatten
  ++ [.i32 8, .i32 8, .i32 0]
  ++ encodeInterval m.config.photo_interval
  ++ (m.waypoints.map fun w => encodeInterval w.photo_interval).flatten

/-! ## Record builders and decoded-row characterization -/

/-- A field whose text parses (only) as `f64`. -/
def fF64 (q : ℚ) : Field := ⟨some q, none, none, none⟩

/-- A field whose text parses (only) as `f32`. -/
def fF32 (q : ℚ) : Field := ⟨none, some q, none, none⟩

/-- A field whose text parses (only) as `i32`. -/
def fI32 (n : Int) : Field := ⟨none, none, some n, none⟩

/-- A field whose text parses (only) as `i16`. -/
def fI16 (n : Int) : Field := ⟨none, none, none, some n⟩

/-- A 46-field record in the schema of §4.1, built from typed values: the
scalar fields at offsets 0-7 and 38-45 and the raw `(type, param)` pairs
of the 15 action slots at offsets 8-37.  Every record whose fields parse
successfully at the schema's types is of this shape. -/
def mkRecord (lat lon alt hd curve : ℚ) (rot : Int) (gm : GimbalPitchMode)
    (gpa : Int) (acts : Nat → Int × Int) (am : AltitudeMode) (spd : ℚ)
    (plat plon palt : ℚ) (pam : AltitudeMode) (t d : ℚ) : List Field :=
  [fF64 lat, fF64 lon, fF32 alt, fF32 hd, fF32 curve, fI32 rot,
   fI32 gm.code, fI32 gpa,
   fI32 (acts 0).1, fI32 (acts 0).2, fI32 (acts 1).1, fI32 (acts 1).2,
   fI32 (acts 2).1, fI32 (acts 2).2, fI32 (acts 3).1, fI32 (acts 3).2,
   fI32 (acts 4).1, fI32 (acts 4).2, fI32 (acts 5).1, fI32 (acts 5).2,
   fI32 (acts 6).1, fI32 (acts 6).2, fI32 (acts 7).1, fI32 (acts 7).2,
   fI32 (acts 8).1, fI32 (acts 8).2, fI32 (acts 9).1, fI32 (acts 9).2,
   fI32 (acts 10).1, fI32 (acts 10).2, fI32 (acts 11).1, fI32 (acts 11).2,
   fI32 (acts 12).1, fI32 (acts 12).2, fI32 (acts 13).1, fI32 (acts 13).2,
   fI32 (acts 14).1, fI32 (acts 14).2,
   fI16 am.code, fF32 spd, fF64 plat, fF64 plon, fF32 palt, fI16 pam.code,
   fF32 t, fF32 d]

/-- An action-slot type value the decoder accepts: the sentinel `-1` or a
valid action code `0..=5`. -/
def ValidType (t : Int) : Prop :=
  t = -1 ∨ t = 0 ∨ t = 1 ∨ t = 2 ∨ t = 3 ∨ t = 4 ∨ t = 5

instance (t : Int) : Decidable (ValidType t) := by
  unfold ValidType; infer_instance

/-- Total decoding of one accepted slot: `none` for the sentinel, the
decoded action for codes `0..=5`. -/
def slotDecode (action_type action_param : Int) : Option Action :=
  if action_type = 0 then some (.StayFor (action_param / 1000))
  else if action_type = 1 then some .TakePhoto
  else if action_type = 2 then some .StartRecording
  else if action_type = 3 then some .StopRecording
  else if action_type = 4 then some (.RotateAircraft action_param)
  else if action_type = 5 then some (.TiltCamera action_param)
  else none

/-- The action list a fully-valid slot region decodes to: the decoded slots
in slot order, sentinels removed. -/
def mkActions (acts : Nat → Int × Int) : List Action :=
  List.filterMap id
    [slotDecode (acts 0).1 (acts 0).2, slotDecode (acts 1).1 (acts 1).2,
     slotDecode (acts 2).1 (acts 2).2, slotDecode (acts 3).1 (acts 3).2,
     slotDecode (acts 4).1 (acts 4).2, slotDecode (acts 5).1 (acts 5).2,
     slotDecode (acts 6).1 (acts 6).2, slotDecode (acts 7).1 (acts 7).2,
     slotDecode (acts 8).1 (acts 8).2, slotDecode (acts 9).1 (acts 9).2,
     slotDecode (acts 10).1 (acts 10).2, slotDecode (acts 11).1 (acts 11).2,
     slotDecode (acts 12).1 (acts 12).2, slotDecode (acts 13).1 (acts 13).2,
     slotDecode (acts 14).1 (acts 14).2]

/-- The tail of the row loop after field parsing and enum decoding: what
`parseRow` computes once every field of the record has parsed and both
enums are in range (proved definitionally equal in `parseRow_mkRecord`). -/
def rowResultAux (hdg : Coordinate → Coordinate → ℚ) (pois : List POI)
    (latitude longitude altitude heading0 curve_size : ℚ)
    (rotation_dir : Int) (gimbal_mode : GimbalPitchMode)
    (gimbal_pitch_angle : Int) (altitude_mode : AltitudeMode) (speed : ℚ)
    (poi_latitude poi_longitude poi_altitude : ℚ)
    (poi_altitude_mode : AltitudeMode)
    (photo_time_interval0 photo_distance_interval0 : ℚ)
    (actionsE : Except LitchiError (List Action)) :
    Except LitchiError (Waypoint × List POI) := do
  let photo_time_interval :=
    (some photo_time_interval0).filter (fun interval => interval > 0)
  let photo_distance_interval :=
    (some photo_distance_interval0).filter (fun interval => interval > 0)
  let actions ← actionsE
  let poi : Option POI :=
    if poi_longitude ≠ 0 ∧ poi_latitude ≠ 0 ∧ poi_altitude ≠ 0 then
      some ⟨poi_latitude, poi_longitude, poi_altitude, poi_altitude_mode⟩
    else none
  let coordinates : Coordinate := ⟨latitude, longitude⟩
  let heading : ℚ :=
    match poi with
    | some p => hdg coordinates ⟨p.latitude, p.longitude⟩
    | none => heading0
  let idxAndPois : Except LitchiError (Option Nat × List POI) :=
    match poi with
    | none => .ok (none, pois)
    | some p =>
      match position p pois with
      | some i => .ok (some i, pois)
      | none =>
        let pois2 := pois ++ [p]
        match checkedSub pois2.length 2 with
        | some i => .ok (some i, pois2)
        | none => .error .subtractOverflow
  let (poi_index, pois') ← idxAndPois
  .ok (⟨coordinates, altitude, heading, curve_size, rotation_dir,
        gimbal_mode, gimbal_pitch_angle, altitude_mode, speed, poi_index,
        actions,
        (photo_time_interval.map PhotoInterval.Time).orElse
          (fun _ => photo_distance_interval.map PhotoInterval.Distance),
        0, 3, 0, 1⟩, pois')

/-- The photo-interval resolution of §4.1 in closed form. -/
def photoSpec (t d : ℚ) : Option PhotoInterval :=
  if t > 0 then some (.Time t)
  else if d > 0 then some (.Distance d)
  else none

/-- The waypoint a successful row yields, before POI directory effects. -/
def baseWaypoint (lat lon alt hd curve : ℚ) (rot : Int)
    (gm : GimbalPitchMode) (gpa : Int) (am : AltitudeMode) (spd : ℚ)
    (oi : Option Nat) (as : List Action) (pi : Option PhotoInterval) :
    Waypoint :=
  ⟨⟨lat, lon⟩, alt, hd, curve, rot, gm, gpa, am, spd, oi, as, pi, 0, 3, 0, 1⟩

/-- `f32::round` as the spec's `round(seconds * 1000)` reads: round half
away from zero.  (Stated from the spec's words, for comparison with the
source's `as i32` cast.) -/
def rustRound (q : ℚ) : Int :=
  if 0 ≤ q then ⌊q + 1 / 2⌋ else ⌈q - 1 / 2⌉

/-- Fixture: the zero bearing function. -/
def hdg0 : Coordinate → Coordinate → ℚ := fun _ _ => 0

/-- Fixture: fifteen sentinel action slots. -/
def sentinelActs : Nat → Int × Int := fun _ => (-1, 0)

/-- Fixture: a decodable record with all-zero POI fields. -/
def recNoPoi : List Field :=
  mkRecord 1 2 3 4 5 6 .Disabled 7 sentinelActs .Absolute 8 0 0 0 .Absolute
    0 0

/-- Fixture: the waypoint `recNoPoi` ingests to. -/
def wNoPoi : Waypoint :=
  baseWaypoint 1 2 3 4 5 6 .Disabled 7 .Absolute 8 none [] none

/-- Fixture: a POI at `(5, 6)`, altitude 7, absolute. -/
def poiFix : POI := ⟨5, 6, 7, .Absolute⟩

/-- Fixture: a decodable record whose POI triple is `(5, 6, 7)`. -/
def recPoi : List Field :=
  mkRecord 1 2 3 4 5 6 .Disabled 7 sentinelActs .Absolute 8 5 6 7 .Absolute
    0 0

/-- Fixture: the waypoint `recPoi` ingests to when `poiFix` is already
collected. -/
def wPoi : Waypoint :=
  baseWaypoint 1 2 3 (hdg0 ⟨1, 2⟩ ⟨5, 6⟩) 5 6 .Disabled 7 .Absolute 8
    (some 0) [] none

/-- Fixture: a decodable record with photo time interval 9 and photo
distance interval 3. -/
def recPhoto : List Field :=
  mkRecord 1 2 3 4 5 6 .Disabled 7 sentinelActs .Absolute 8 0 0 0 .Absolute
    9 3

/-- Fixture: the waypoint `recPhoto` ingests to. -/
def wPhoto : Waypoint :=
  baseWaypoint 1 2 3 4 5 6 .Disabled 7 .Absolute 8 none [] (photoSpec 9 3)

/-- Fixture: action slots whose slot 0 carries the invalid type code 7. -/
def badActs : Nat → Int × Int := fun i => if i = 0 then (7, 0) else (-1, 0)

/-- Fixture: a record whose first action slot has type code 7. -/
def recBadAct : List Field :=
  mkRecord 1 2 3 4 5 6 .Disabled 7 badActs .Absolute 8 0 0 0 .Absolute 0 0

/-- Fixture: the mission `recNoPoi` alone ingests to. -/
def mNoPoi : LitchiMission := ⟨[wNoPoi], [], .default⟩

theorem ok_bind {ε α β : Type} (a : α) (f : α → Except ε β) :
    (Except.ok a >>= f) = f a := rfl

theorem error_bind {ε α β : Type} (e : ε) (f : α → Except ε β) :
    (Except.error e >>= f : Except ε β) = Except.error e := rfl

theorem actionFromCode_valid (t p : Int) (h : ValidType t) :
    actionFromCode t p = .ok (slotDecode t p) := by
  rcases h with h | h | h | h | h | h | h <;> subst h <;> rfl

theorem decodeSlot_mkRecord (lat lon alt hd curve : ℚ) (rot : Int)
    (gm : GimbalPitchMode) (gpa : Int) (acts : Nat → Int × Int)
    (am : AltitudeMode) (spd : ℚ) (plat plon palt : ℚ) (pam : AltitudeMode)
    (t d : ℚ) (i : Nat) (hi : i < 15) :
    decodeSlot (mkRecord lat lon alt hd curve rot gm gpa acts am spd
      plat plon palt pam t d) i = actionFromCode (acts i).1 (acts i).2 := by
  interval_cases i <;> rfl

theorem decodeActions_mkRecord (lat lon alt hd curve : ℚ) (rot : Int)
    (gm : GimbalPitchMode) (gpa : Int) (acts : Nat → Int × Int)
    (am : AltitudeMode) (spd : ℚ) (plat plon palt : ℚ) (pam : AltitudeMode)
    (t d : ℚ) (hacts : ∀ i, i < 15 → ValidType (acts i).1) :
    decodeActions (mkRecord lat lon alt hd curve rot gm gpa acts am spd
      plat plon palt pam t d) = .ok (mkActions acts) := by
  have hs : ∀ i, i < 15 →
      decodeSlot (mkRecord lat lon alt hd curve rot gm gpa acts am spd
        plat plon palt pam t d) i = .ok (slotDecode (acts i).1 (acts i).2) :=
    fun i hi => by
      rw [decodeSlot_mkRecord _ _ _ _ _ _ _ _ _ _ _ _ _ _ _ _ _ _ hi,
        actionFromCode_valid _ _ (hacts i hi)]
  rw [decodeActions,
    show List.range 15 = [0,1,2,3,4,5,6,7,8,9,10,11,12,13,14] from rfl]
  simp only [List.mapM_cons, List.mapM_nil, hs 0 (by norm_num),
    hs 1 (by norm_num), hs 2 (by norm_num), hs 3 (by norm_num),
    hs 4 (by norm_num), hs 5 (by norm_num), hs 6 (by norm_num),
    hs 7 (by norm_num), hs 8 (by norm_num), hs 9 (by norm_num),
    hs 10 (by norm_num), hs 11 (by norm_num), hs 12 (by norm_num),
    hs 13 (by norm_num), hs 14 (by norm_num)]
  simp only [ok_bind, pure_bind]
  rfl

theorem parseRow_mkRecord (hdg : Coordinate → Coordinate → ℚ)
    (pois : List POI) (lat lon alt hd curve : ℚ) (rot : Int)
    (gm : GimbalPitchMode) (gpa : Int) (acts : Nat → Int × Int)
    (am : AltitudeMode) (spd : ℚ) (plat plon palt : ℚ) (pam : AltitudeMode)
    (t d : ℚ) :
    parseRow hdg pois (mkRecord lat lon alt hd curve rot gm gpa acts am spd
      plat plon palt pam t d) =
    rowResultAux hdg pois lat lon alt hd curve rot gm gpa am spd
      plat plon palt pam t d
      (decodeActions (mkRecord lat lon alt hd curve rot gm gpa acts am spd
        plat plon palt pam t d)) := by
  cases gm <;> cases am <;> cases pam <;> rfl

theorem photoInterval_eq_photoSpec (t d : ℚ) :
    ((((some t).filter (fun interval => interval > 0)).map
        PhotoInterval.Time).orElse
      (fun _ => ((some d).filter (fun interval => interval > 0)).map
        PhotoInterval.Distance)) = photoSpec t d := by
  by_cases ht : t > 0 <;> by_cases hd : d > 0 <;>
    simp [Option.filter, photoSpec, Option.orElse, ht, hd]

theorem rowResultAux_no_poi (hdg : Coordinate → Coordinate → ℚ)
    (pois : List POI) (lat lon alt hd curve : ℚ) (rot : Int)
    (gm : GimbalPitchMode) (gpa : Int) (am : AltitudeMode) (spd : ℚ)
    (plat plon palt : ℚ) (pam : AltitudeMode) (t d : ℚ) (as : List Action)
    (h : ¬(plon ≠ 0 ∧ plat ≠ 0 ∧ palt ≠ 0)) :
    rowResultAux hdg pois lat lon alt hd curve rot gm gpa am spd
      plat plon palt pam t d (.ok as) =
    .ok (baseWaypoint lat lon alt hd curve rot gm gpa am spd none as
      (photoSpec t d), pois) := by
  rw [rowResultAux, ok_bind]
  simp only [if_neg h]
  rw [show (Except.ok (none, pois) : Except LitchiError (Option Nat × List POI))
      >>= _ = _ from ok_bind _ _]
  rw [baseWaypoint, ← photoInterval_eq_photoSpec]

theorem rowResultAux_poi_found (hdg : Coordinate → Coordinate → ℚ)
    (pois : List POI) (lat lon alt hd curve : ℚ) (rot : Int)
    (gm : GimbalPitchMode) (gpa : Int) (am : AltitudeMode) (spd : ℚ)
    (plat plon palt : ℚ) (pam : AltitudeMode) (t d : ℚ) (as : List Action)
    (i : Nat) (h : plon ≠ 0 ∧ plat ≠ 0 ∧ palt ≠ 0)
    (hpos : position ⟨plat, plon, palt, pam⟩ pois = some i) :
    rowResultAux hdg pois lat lon alt hd curve rot gm gpa am spd
      plat plon palt pam t d (.ok as) =
    .ok (baseWaypoint lat lon alt (hdg ⟨lat, lon⟩ ⟨plat, plon⟩) curve rot
      gm gpa am spd (some i) as (photoSpec t d), pois) := by
  rw [rowResultAux, ok_bind]
  simp only [if_pos h, hpos]
  rw [show (Except.ok (some i, pois) : Except LitchiError (Option Nat × List POI))
      >>= _ = _ from ok_bind _ _]
  rw [baseWaypoint, ← photoInterval_eq_photoSpec]

theorem rowResultAux_poi_new_empty (hdg : Coordinate → Coordinate → ℚ)
    (lat lon alt hd curve : ℚ) (rot : Int) (gm : GimbalPitchMode)
    (gpa : Int) (am : AltitudeMode) (spd : ℚ) (plat plon palt : ℚ)
    (pam : AltitudeMode) (t d : ℚ) (as : List Action)
    (h : plon ≠ 0 ∧ plat ≠ 0 ∧ palt ≠ 0) :
    rowResultAux hdg [] lat lon alt hd curve rot gm gpa am spd
      plat plon palt pam t d (.ok as) =
    .error .subtractOverflow := by
  rw [rowResultAux, ok_bind]
  simp only [if_pos h]
  rfl

theorem rowResultAux_poi_new (hdg : Coordinate → Coordinate → ℚ)
    (pois : List POI) (lat lon alt hd curve : ℚ) (rot : Int)
    (gm : GimbalPitchMode) (gpa : Int) (am : AltitudeMode) (spd : ℚ)
    (plat plon palt : ℚ) (pam : AltitudeMode) (t d : ℚ) (as : List Action)
    (h : plon ≠ 0 ∧ plat ≠ 0 ∧ palt ≠ 0)
    (hpos : position ⟨plat, plon, palt, pam⟩ pois = none)
    (hne : pois ≠ []) :
    rowResultAux hdg pois lat lon alt hd curve rot gm gpa am spd
      plat plon palt pam t d (.ok as) =
    .ok (baseWaypoint lat lon alt (hdg ⟨lat, lon⟩ ⟨plat, plon⟩) curve rot
      gm gpa am spd (some (pois.length - 1)) as (photoSpec t d),
      pois ++ [⟨plat, plon, palt, pam⟩]) := by
  have hlen : 1 ≤ pois.length := by
    cases pois with
    | nil => exact absurd rfl hne
    | cons a l => simp
  have hsub : checkedSub (pois ++ [(⟨plat, plon, palt, pam⟩ : POI)]).length 2
      = some (pois.length - 1) := by
    rw [checkedSub, List.length_append, List.length_singleton]
    rw [if_pos (by omega)]
    congr 1
  rw [rowResultAux, ok_bind]
  simp only [if_pos h, hpos, hsub]
  rw [show (Except.ok (some (pois.length - 1), pois ++ [(⟨plat, plon, palt, pam⟩ : POI)])
      : Except LitchiError (Option Nat × List POI)) >>= _ = _ from ok_bind _ _]
  rw [baseWaypoint, ← photoInterval_eq_photoSpec]

theorem except_bind_ok {ε α β : Type} {x : Except ε α} {f : α → Except ε β}
    {b : β} : x >>= f = .ok b ↔ ∃ a, x = .ok a ∧ f a = .ok b := by
  cases x with
  | error e => simp [error_bind]
  | ok a => simp [ok_bind]

theorem rowResultAux_error (hdg : Coordinate → Coordinate → ℚ)
    (pois : List POI) (lat lon alt hd curve : ℚ) (rot : Int)
    (gm : GimbalPitchMode) (gpa : Int) (am : AltitudeMode) (spd : ℚ)
    (plat plon palt : ℚ) (pam : AltitudeMode) (t d : ℚ) (e : LitchiError) :
    rowResultAux hdg pois lat lon alt hd curve rot gm gpa am spd
      plat plon palt pam t d (.error e) = .error e := rfl

theorem goRows_nil (hdg : Coordinate → Coordinate → ℚ)
    (ws : List Waypoint) (ps : List POI) :
    goRows hdg [] ws ps = .ok (ws, ps) := rfl

theorem goRows_cons (hdg : Coordinate → Coordinate → ℚ)
    (r : List Field) (rest : List (List Field)) (ws : List Waypoint)
    (ps : List POI) :
    goRows hdg (r :: rest) ws ps =
      parseRow hdg ps r >>= fun x => goRows hdg rest (ws ++ [x.1]) x.2 := by
  rw [goRows]

theorem goRows_append (hdg : Coordinate → Coordinate → ℚ)
    (l1 l2 : List (List Field)) (ws : List Waypoint) (ps : List POI) :
    goRows hdg (l1 ++ l2) ws ps =
      goRows hdg l1 ws ps >>= fun x => goRows hdg l2 x.1 x.2 := by
  induction l1 generalizing ws ps with
  | nil => rw [List.nil_append, goRows_nil, ok_bind]
  | cons r l1 ih =>
    rw [List.cons_append, goRows_cons, goRows_cons]
    rcases hp : parseRow hdg ps r with e | ⟨w, ps'⟩
    · rw [error_bind, error_bind, error_bind]
    · rw [ok_bind, ok_bind, ih]

theorem parseRow_wrong_length (hdg : Coordinate → Coordinate → ℚ)
    (pois : List POI) (record : List Field) (h : record.length ≠ 46) :
    parseRow hdg pois record =
      .error (.IncorrectRecordLength record.length 46) := by
  rw [parseRow, if_pos h]

theorem read_from_csv_eq (hdg : Coordinate → Coordinate → ℚ)
    (records : List (List Field)) :
    read_from_csv hdg records = goRows hdg records [] [] >>=
      fun x => LitchiMission.new x.1 x.2 MissionConfig.default := rfl

theorem ratClamp_bounds (x lo hi : ℚ) (h : lo ≤ hi) :
    lo ≤ ratClamp x lo hi ∧ ratClamp x lo hi ≤ hi := by
  rw [ratClamp]
  split
  · exact ⟨le_refl lo, h⟩
  · split
    · exact ⟨h, le_refl hi⟩
    · constructor <;> linarith [not_lt.mp (by assumption : ¬ x < lo),
        not_lt.mp (by assumption : ¬ x > hi)]

/-! ## Claim theorems -/

/-- C4 (counterexample): the encoder does NOT write `round(seconds * 1000)`
as the `StayFor` param: at `seconds = 3/2000` (i.e. `0.0015`), the source's
`(stay * 1000.) as i32` truncates `1.5` to `1`, while rounding gives `2`. -/
theorem stayfor_param_rounding_cex :
    (Action.StayFor (3 / 2000)).idx_and_param ≠
      (0, rustRound ((3 / 2000) * 1000)) := by
  have h1 : ((3 : ℚ) / 2000) * 1000 = 3 / 2 := by norm_num
  have hf : (⌊((3 : ℚ) / 2)⌋ : Int) = 1 := by
    rw [Int.floor_eq_iff]
    norm_num
  have hr : rustRound (((3 : ℚ) / 2000) * 1000) = 2 := by
    rw [h1, rustRound, if_pos (by norm_num : (0:ℚ) ≤ 3 / 2),
      show (3 : ℚ) / 2 + 1 / 2 = 2 by norm_num]
    norm_num
  have ht : (Action.StayFor ((3 : ℚ) / 2000)).idx_and_param = (0, 1) := by
    rw [Action.idx_and_param, h1, truncToI32,
      if_pos (by norm_num : (0:ℚ) ≤ 3 / 2), hf]
    rfl
  rw [ht, hr]
  decide

/-- C4 (amended): the encoder writes `StayFor` with code 0 and param
`seconds * 1000` truncated toward zero (saturating `as i32` cast), not
rounded.  Re-encoding a decoded action recovers the exact `(code, param)`
pair for every non-`StayFor` action (those carry no floats), and recovers a
`StayFor` millisecond param exactly only on the whole-second subdomain
`param = 1000 * k` with `|param| ≤ 2^24`: there every `f32` step of the
source is exact — `param as f32` is an integer of magnitude at most `2^24`,
the quotient of `param as f32 / 1000.` is the integer `k` (magnitude at
most `2^24`, so the correctly-rounded quotient is exact), the product
`stay * 1000.` is again that integer, and the `as i32` cast is the
identity on it — so the exact-rational computation below coincides with
the program's `f32` computation on this subdomain.  No recovery is claimed
for general `i32` params: outside this subdomain the source's `f32`
roundings (already at `param as f32` for `|param| > 2^24`) can perturb the
value, which the exact-rational model does not track. -/
theorem stayfor_param_truncated_roundtrip :
    (∀ s : ℚ, (Action.StayFor s).idx_and_param = (0, truncToI32 (s * 1000))) ∧
    (∀ a : Action, (∀ s, a ≠ .StayFor s) →
      actionFromCode a.idx_and_param.1 a.idx_and_param.2 = .ok (some a)) ∧
    (∀ k : Int, -(2 ^ 24) ≤ 1000 * k → 1000 * k ≤ 2 ^ 24 →
      (Action.StayFor (((1000 * k : Int) : ℚ) / 1000)).idx_and_param =
        (0, 1000 * k)) := by
  refine ⟨?_, ?_, ?_⟩
  · intro s
    rw [Action.idx_and_param]
  · intro a ha
    cases a with
    | StayFor s => exact absurd rfl (ha s)
    | TakePhoto => rfl
    | StartRecording => rfl
    | StopRecording => rfl
    | RotateAircraft r => rfl
    | TiltCamera c => rfl
  · intro k hlo hhi
    rw [Action.idx_and_param]
    have h1 : (((1000 * k : Int) : ℚ) / 1000) * 1000 = ((1000 * k : Int) : ℚ) := by
      field_simp
      ring
    rw [h1]
    have h2 : truncToI32 ((1000 * k : Int) : ℚ) = 1000 * k := by
      rw [truncToI32]
      rcases le_or_lt 0 ((1000 * k : Int) : ℚ) with h | h
      · rw [if_pos h, Int.floor_intCast, i32Sat, if_neg (by omega),
          if_neg (by omega)]
      · rw [if_neg (not_le.mpr h), Int.ceil_intCast, i32Sat,
          if_neg (by omega), if_neg (by omega)]
    rw [h2]

/-- C4 (witness): exact recovery of `TakePhoto` and of a whole-second
`StayFor` at 2000 milliseconds. -/
theorem stayfor_param_truncated_roundtrip_witness :
    ((∀ s : ℚ, Action.TakePhoto ≠ .StayFor s) ∧
      actionFromCode Action.TakePhoto.idx_and_param.1
        Action.TakePhoto.idx_and_param.2 = .ok (some .TakePhoto)) ∧
    (-(2 ^ 24) ≤ (1000 * 2 : Int) ∧ (1000 * 2 : Int) ≤ 2 ^ 24 ∧
      (Action.StayFor (((1000 * 2 : Int) : ℚ) / 1000)).idx_and_param =
        (0, (1000 * 2 : Int))) :=
  ⟨⟨fun s h => Action.noConfusion h,
      stayfor_param_truncated_roundtrip.2.1 .TakePhoto
        (fun s h => Action.noConfusion h)⟩,
    ⟨by norm_num, by norm_num,
      stayfor_param_truncated_roundtrip.2.2 2 (by norm_num) (by norm_num)⟩⟩

/-- C5: whatever the stored configuration values, the cruising-speed `f32`
written at position 4 of the encoded header lies in `[-15, 15]` and the
RC-speed `f32` written at position 5 lies in `[2, 15]`. -/
theorem encoded_speeds_clamped (m : LitchiMission) :
    (m.to_binary.get? 4 =
        some (.f32 (ratClamp m.config.cruising_speed (-15) 15)) ∧
      -15 ≤ ratClamp m.config.cruising_speed (-15) 15 ∧
      ratClamp m.config.cruising_speed (-15) 15 ≤ 15) ∧
    (m.to_binary.get? 5 = some (.f32 (ratClamp m.config.rc_speed 2 15)) ∧
      2 ≤ ratClamp m.config.rc_speed 2 15 ∧
      ratClamp m.config.rc_speed 2 15 ≤ 15) := by
  refine ⟨⟨rfl, ?_⟩, ⟨rfl, ?_⟩⟩
  · exact ratClamp_bounds m.config.cruising_speed (-15) 15 (by norm_num)
  · exact ratClamp_bounds m.config.rc_speed 2 15 (by norm_num)

/-- C6: `LitchiMission::new` succeeds (returning exactly the given parts) if
and only if every waypoint's POI index, when present, is strictly below the
POI count, and fails with `InvalidMission` (its only failure) otherwise. -/
theorem new_validates_poi_indices (waypoints : List Waypoint)
    (pois : List POI) (config : MissionConfig) :
    (LitchiMission.new waypoints pois config = .ok ⟨waypoints, pois, config⟩
      ↔ ∀ w ∈ waypoints, ∀ i, w.poi_index = some i → i < pois.length) ∧
    (LitchiMission.new waypoints pois config = .error .InvalidMission
      ↔ ¬ ∀ w ∈ waypoints, ∀ i, w.poi_index = some i → i < pois.length) := by
  have hval : (LitchiMission.validate ⟨waypoints, pois, config⟩ = true) ↔
      ∀ w ∈ waypoints, ∀ i, w.poi_index = some i → i < pois.length := by
    rw [LitchiMission.validate, List.all_eq_true]
    constructor
    · intro h w hw i hi
      have := h w hw
      rw [hi] at this
      simpa using this
    · intro h w hw
      cases hio : w.poi_index with
      | none => rfl
      | some i => simpa using h w hw i hio
  by_cases hv : LitchiMission.validate ⟨waypoints, pois, config⟩ = true
  · have hnew : LitchiMission.new waypoints pois config =
        .ok ⟨waypoints, pois, config⟩ := by
      rw [LitchiMission.new]
      exact if_pos hv
    refine ⟨iff_of_true hnew (hval.mp hv),
      iff_of_false ?_ (not_not_intro (hval.mp hv))⟩
    rw [hnew]
    simp
  · have hnew : LitchiMission.new waypoints pois config =
        .error .InvalidMission := by
      rw [LitchiMission.new]
      exact if_neg hv
    refine ⟨iff_of_false ?_ (fun hp => hv (hval.mpr hp)),
      iff_of_true hnew (fun hp => hv (hval.mpr hp))⟩
    rw [hnew]
    simp

theorem parseRow_mkRecord_ok_cases (hdg : Coordinate → Coordinate → ℚ)
    (pois : List POI) (lat lon alt hd curve : ℚ) (rot : Int)
    (gm : GimbalPitchMode) (gpa : Int) (acts : Nat → Int × Int)
    (am : AltitudeMode) (spd : ℚ) (plat plon palt : ℚ) (pam : AltitudeMode)
    (t d : ℚ) (hacts : ∀ i, i < 15 → ValidType (acts i).1) (w : Waypoint)
    (ps' : List POI)
    (hok : parseRow hdg pois (mkRecord lat lon alt hd curve rot gm gpa acts
      am spd plat plon palt pam t d) = .ok (w, ps')) :
    (¬(plon ≠ 0 ∧ plat ≠ 0 ∧ palt ≠ 0) ∧
      w = baseWaypoint lat lon alt hd curve rot gm gpa am spd none
        (mkActions acts) (photoSpec t d) ∧ ps' = pois) ∨
    ((plon ≠ 0 ∧ plat ≠ 0 ∧ palt ≠ 0) ∧ ∃ oi,
      w = baseWaypoint lat lon alt (hdg ⟨lat, lon⟩ ⟨plat, plon⟩) curve rot
        gm gpa am spd (some oi) (mkActions acts) (photoSpec t d) ∧
      ((∃ i, position ⟨plat, plon, palt, pam⟩ pois = some i ∧ oi = i ∧
          ps' = pois) ∨
        (position ⟨plat, plon, palt, pam⟩ pois = none ∧
          oi = pois.length - 1 ∧
          ps' = pois ++ [⟨plat, plon, palt, pam⟩] ∧ pois ≠ []))) := by
  rw [parseRow_mkRecord, decodeActions_mkRecord lat lon alt hd curve rot gm
    gpa acts am spd plat plon palt pam t d hacts] at hok
  by_cases hp : plon ≠ 0 ∧ plat ≠ 0 ∧ palt ≠ 0
  · right
    refine ⟨hp, ?_⟩
    cases hpos : position ⟨plat, plon, palt, pam⟩ pois with
    | some i =>
      rw [rowResultAux_poi_found hdg pois lat lon alt hd curve rot gm gpa
        am spd plat plon palt pam t d (mkActions acts) i hp hpos] at hok
      simp only [Except.ok.injEq, Prod.mk.injEq] at hok
      exact ⟨i, hok.1.symm, .inl ⟨i, rfl, rfl, hok.2.symm⟩⟩
    | none =>
      cases pois with
      | nil =>
        rw [rowResultAux_poi_new_empty hdg lat lon alt hd curve rot gm gpa
          am spd plat plon palt pam t d (mkActions acts) hp] at hok
        exact absurd hok (by simp)
      | cons p0 ps0 =>
        rw [rowResultAux_poi_new hdg (p0 :: ps0) lat lon alt hd curve rot
          gm gpa am spd plat plon palt pam t d (mkActions acts) hp hpos
          (by simp)] at hok
        simp only [Except.ok.injEq, Prod.mk.injEq] at hok
        exact ⟨(p0 :: ps0).length - 1, hok.1.symm,
          .inr ⟨rfl, rfl, hok.2.symm, by simp⟩⟩
  · left
    rw [rowResultAux_no_poi hdg pois lat lon alt hd curve rot gm gpa am spd
      plat plon palt pam t d (mkActions acts) hp] at hok
    simp only [Except.ok.injEq, Prod.mk.injEq] at hok
    exact ⟨hp, hok.1.symm, hok.2.symm⟩

/-- C1 (failing input): ingesting two identical rows whose POI triple is
`(5, 6, 7)` does not produce a mission with one shared POI index: the very
first POI discovery already evaluates `pois.len() - 2` with `pois.len() = 1`
and the ingestion aborts with the underflow panic. -/
theorem poi_first_discovery_panics :
    read_from_csv (fun _ _ => 0)
      [mkRecord 1 2 3 4 5 6 .Disabled 7 (fun _ => (-1, 0)) .Absolute 8
        5 6 7 .Absolute 0 0,
       mkRecord 1 2 3 4 5 6 .Disabled 7 (fun _ => (-1, 0)) .Absolute 8
        5 6 7 .Absolute 0 0] = .error .subtractOverflow := by
  rfl

/-- C2: for every single-row input whose fields decode (all action types
valid) and whose POI triple is entirely non-zero, ingestion reaches the
appended-POI index computation `pois.len() - 2` with `pois.len() = 1` and
aborts with the checked-subtraction underflow. -/
theorem poi_index_underflow_single_row (hdg : Coordinate → Coordinate → ℚ)
    (lat lon alt hd curve : ℚ) (rot : Int) (gm : GimbalPitchMode)
    (gpa : Int) (acts : Nat → Int × Int) (am : AltitudeMode) (spd : ℚ)
    (plat plon palt : ℚ) (pam : AltitudeMode) (t d : ℚ)
    (hacts : ∀ i, i < 15 → ValidType (acts i).1)
    (hplat : plat ≠ 0) (hplon : plon ≠ 0) (hpalt : palt ≠ 0) :
    read_from_csv hdg [mkRecord lat lon alt hd curve rot gm gpa acts am spd
      plat plon palt pam t d] = .error .subtractOverflow := by
  have h1 : parseRow hdg [] (mkRecord lat lon alt hd curve rot gm gpa acts
      am spd plat plon palt pam t d) = .error .subtractOverflow := by
    rw [parseRow_mkRecord, decodeActions_mkRecord lat lon alt hd curve rot
      gm gpa acts am spd plat plon palt pam t d hacts]
    exact rowResultAux_poi_new_empty hdg lat lon alt hd curve rot gm gpa
      am spd plat plon palt pam t d (mkActions acts) ⟨hplon, hplat, hpalt⟩
  rw [read_from_csv_eq, goRows_cons, h1, error_bind, error_bind]

/-- C2 (witness): a concrete single row with POI triple `(5, 6, 7)`. -/
theorem poi_index_underflow_single_row_witness :
    (5 : ℚ) ≠ 0 ∧ (6 : ℚ) ≠ 0 ∧ (7 : ℚ) ≠ 0 ∧
    read_from_csv (fun _ _ => 0)
      [mkRecord 1 2 3 4 5 6 .Disabled 7 (fun _ => (-1, 0)) .Absolute 8
        5 6 7 .Absolute 0 0] = .error .subtractOverflow :=
  ⟨by norm_num, by norm_num, by norm_num,
    poi_index_underflow_single_row (fun _ _ => 0) 1 2 3 4 5 6 .Disabled 7
      (fun _ => (-1, 0)) .Absolute 8 5 6 7 .Absolute 0 0
      (fun _ _ => Or.inl rfl) (by norm_num) (by norm_num) (by norm_num)⟩

/-- C3: for every decodable row, if the POI triple is entirely non-zero the
produced waypoint's heading is the bearing function applied from the
waypoint's coordinate to the POI's coordinate (the parsed heading of field 3
is discarded), otherwise the parsed heading is kept; and the encoder writes
exactly that stored heading (position 2 of the waypoint block). -/
theorem heading_override_on_poi (hdg : Coordinate → Coordinate → ℚ)
    (pois : List POI) (lat lon alt hd curve : ℚ) (rot : Int)
    (gm : GimbalPitchMode) (gpa : Int) (acts : Nat → Int × Int)
    (am : AltitudeMode) (spd : ℚ) (plat plon palt : ℚ) (pam : AltitudeMode)
    (t d : ℚ) (hacts : ∀ i, i < 15 → ValidType (acts i).1) (w : Waypoint)
    (ps' : List POI)
    (hok : parseRow hdg pois (mkRecord lat lon alt hd curve rot gm gpa acts
      am spd plat plon palt pam t d) = .ok (w, ps')) :
    ((plon ≠ 0 ∧ plat ≠ 0 ∧ palt ≠ 0) →
      w.heading = hdg ⟨lat, lon⟩ ⟨plat, plon⟩) ∧
    (¬(plon ≠ 0 ∧ plat ≠ 0 ∧ palt ≠ 0) → w.heading = hd) ∧
    (encodeWaypoint w).get? 2 = some (.f32 w.heading) := by
  rcases parseRow_mkRecord_ok_cases hdg pois lat lon alt hd curve rot gm
      gpa acts am spd plat plon palt pam t d hacts w ps' hok with
    ⟨hp, hw, -⟩ | ⟨hp, oi, hw, -⟩
  · exact ⟨fun hc => absurd hc hp, fun _ => by rw [hw]; rfl, rfl⟩
  · exact ⟨fun _ => by rw [hw]; rfl, fun hc => absurd hp hc, rfl⟩

/-- C8: for every decodable row, the waypoint's photo interval is
`Time(t)` when the parsed time interval `t` is strictly positive,
else `Distance(d)` when the parsed distance interval `d` is strictly
positive, and absent otherwise. -/
theorem photo_interval_resolution (hdg : Coordinate → Coordinate → ℚ)
    (pois : List POI) (lat lon alt hd curve : ℚ) (rot : Int)
    (gm : GimbalPitchMode) (gpa : Int) (acts : Nat → Int × Int)
    (am : AltitudeMode) (spd : ℚ) (plat plon palt : ℚ) (pam : AltitudeMode)
    (t d : ℚ) (hacts : ∀ i, i < 15 → ValidType (acts i).1) (w : Waypoint)
    (ps' : List POI)
    (hok : parseRow hdg pois (mkRecord lat lon alt hd curve rot gm gpa acts
      am spd plat plon palt pam t d) = .ok (w, ps')) :
    w.photo_interval = if t > 0 then some (.Time t)
      else if d > 0 then some (.Distance d) else none := by
  have : w.photo_interval = photoSpec t d := by
    rcases parseRow_mkRecord_ok_cases hdg pois lat lon alt hd curve rot gm
        gpa acts am spd plat plon palt pam t d hacts w ps' hok with
      ⟨-, hw, -⟩ | ⟨-, oi, hw, -⟩ <;> rw [hw] <;> rfl
  rw [this, photoSpec]

theorem actionFromCode_invalid (t p : Int) (h : ¬ ValidType t) :
    actionFromCode t p = .error (.InvalidActionType t) := by
  rw [ValidType] at h
  push_neg at h
  obtain ⟨h1, h2, h3, h4, h5, h6, h7⟩ := h
  rw [actionFromCode, if_neg h1, if_neg h2, if_neg h3, if_neg h4, if_neg h5,
    if_neg h6, if_neg h7]

theorem mapM_first_error {ε α β : Type} (g : α → Except ε β) (l1 : List α)
    (j : α) (l2 : List α) (e : ε) (h1 : ∀ x ∈ l1, ∃ b, g x = .ok b)
    (hj : g j = .error e) : (l1 ++ j :: l2).mapM g = .error e := by
  induction l1 with
  | nil => rw [List.nil_append, List.mapM_cons, hj, error_bind]
  | cons a l ih =>
    obtain ⟨b, hb⟩ := h1 a (by simp)
    rw [List.cons_append, List.mapM_cons, hb, ok_bind,
      ih (fun x hx => h1 x (by simp [hx])), error_bind]

theorem range15_split (j : Nat) (hj : j < 15) :
    List.range 15 = List.range j ++ j ::
      ((List.range (14 - j)).map Nat.succ).map (j + ·) := by
  have h15 : (15 : Nat) = j + (15 - j) := by omega
  rw [h15, List.range_add, show 15 - j = (14 - j) + 1 by omega,
    List.range_succ_eq_map]
  simp

theorem decodeActions_mkRecord_err (lat lon alt hd curve : ℚ) (rot : Int)
    (gm : GimbalPitchMode) (gpa : Int) (acts : Nat → Int × Int)
    (am : AltitudeMode) (spd : ℚ) (plat plon palt : ℚ) (pam : AltitudeMode)
    (t d : ℚ) (j : Nat) (hj : j < 15) (hbad : ¬ ValidType (acts j).1)
    (hgood : ∀ i, i < j → ValidType (acts i).1) :
    decodeActions (mkRecord lat lon alt hd curve rot gm gpa acts am spd
      plat plon palt pam t d) = .error (.InvalidActionType (acts j).1) := by
  rw [decodeActions, range15_split j hj]
  rw [mapM_first_error _ (List.range j) j _ _ ?h1 ?hje, error_bind]
  case hje =>
    rw [decodeSlot_mkRecord lat lon alt hd curve rot gm gpa acts am spd
      plat plon palt pam t d j hj, actionFromCode_invalid _ _ hbad]
  case h1 =>
    intro x hx
    have hxj : x < j := List.mem_range.mp hx
    exact ⟨slotDecode (acts x).1 (acts x).2, by
      rw [decodeSlot_mkRecord lat lon alt hd curve rot gm gpa acts am spd
        plat plon palt pam t d x (lt_trans hxj hj),
        actionFromCode_valid _ _ (hgood x hxj)]⟩

/-- C7: the per-slot decode table of the ingestion (`-1` sentinel dropped,
codes 0-5 decode to `StayFor(param/1000)`, `TakePhoto`, `StartRecording`,
`StopRecording`, `RotateAircraft(param)`, `TiltCamera(param)`, any other
code is an `InvalidActionType` error carrying that code); a decodable row's
waypoint carries the decoded slots in slot order with sentinels removed, at
most 15 of them; and the first invalid slot code aborts the row with its
`InvalidActionType` error. -/
theorem action_slot_decoding :
    (∀ p : Int, actionFromCode (-1) p = .ok none ∧
      actionFromCode 0 p = .ok (some (.StayFor ((p : ℚ) / 1000))) ∧
      actionFromCode 1 p = .ok (some .TakePhoto) ∧
      actionFromCode 2 p = .ok (some .StartRecording) ∧
      actionFromCode 3 p = .ok (some .StopRecording) ∧
      actionFromCode 4 p = .ok (some (.RotateAircraft p)) ∧
      actionFromCode 5 p = .ok (some (.TiltCamera p)) ∧
      ∀ t : Int, ¬ ValidType t →
        actionFromCode t p = .error (.InvalidActionType t)) ∧
    (∀ (hdg : Coordinate → Coordinate → ℚ) (pois : List POI)
      (lat lon alt hd curve : ℚ) (rot : Int) (gm : GimbalPitchMode)
      (gpa : Int) (acts : Nat → Int × Int) (am : AltitudeMode) (spd : ℚ)
      (plat plon palt : ℚ) (pam : AltitudeMode) (t d : ℚ),
      (∀ i, i < 15 → ValidType (acts i).1) →
      ∀ (w : Waypoint) (ps' : List POI),
        parseRow hdg pois (mkRecord lat lon alt hd curve rot gm gpa acts
          am spd plat plon palt pam t d) = .ok (w, ps') →
        w.actions = mkActions acts ∧ w.actions.length ≤ 15) ∧
    (∀ (hdg : Coordinate → Coordinate → ℚ) (pois : List POI)
      (lat lon alt hd curve : ℚ) (rot : Int) (gm : GimbalPitchMode)
      (gpa : Int) (acts : Nat → Int × Int) (am : AltitudeMode) (spd : ℚ)
      (plat plon palt : ℚ) (pam : AltitudeMode) (t d : ℚ) (j : Nat),
      j < 15 → ¬ ValidType (acts j).1 → (∀ i, i < j → ValidType (acts i).1) →
      parseRow hdg pois (mkRecord lat lon alt hd curve rot gm gpa acts am
        spd plat plon palt pam t d) =
        .error (.InvalidActionType (acts j).1)) := by
  refine ⟨?_, ?_, ?_⟩
  · intro p
    exact ⟨rfl, rfl, rfl, rfl, rfl, rfl, rfl,
      fun t ht => actionFromCode_invalid t p ht⟩
  · intro hdg pois lat lon alt hd curve rot gm gpa acts am spd plat plon
      palt pam t d hacts w ps' hok
    have hw : w.actions = mkActions acts := by
      rcases parseRow_mkRecord_ok_cases hdg pois lat lon alt hd curve rot
          gm gpa acts am spd plat plon palt pam t d hacts w ps' hok with
        ⟨-, hw, -⟩ | ⟨-, oi, hw, -⟩ <;> rw [hw] <;> rfl
    refine ⟨hw, ?_⟩
    rw [hw, mkActions]
    exact le_trans (List.length_filterMap_le _ _) (by rfl)
  · intro hdg pois lat lon alt hd curve rot gm gpa acts am spd plat plon
      palt pam t d j hj hbad hgood
    rw [parseRow_mkRecord, decodeActions_mkRecord_err lat lon alt hd curve
      rot gm gpa acts am spd plat plon palt pam t d j hj hbad hgood,
      rowResultAux_error]

/-- C9: within any record sequence, once the records before `r` have been
ingested, a record `r` with a field count other than 46 fails the whole
ingestion with `IncorrectRecordLength (actual, 46)` — whatever the contents
of its fields (in particular even if none of them parses) and whatever
follows it. -/
theorem record_length_check_first (hdg : Coordinate → Coordinate → ℚ)
    (pre : List (List Field)) (r : List Field) (post : List (List Field))
    (ws : List Waypoint) (ps : List POI)
    (hpre : goRows hdg pre [] [] = .ok (ws, ps)) (hlen : r.length ≠ 46) :
    read_from_csv hdg (pre ++ r :: post) =
      .error (.IncorrectRecordLength r.length 46) := by
  rw [read_from_csv_eq, goRows_append, hpre, ok_bind, goRows_cons,
    parseRow_wrong_length hdg ps r hlen, error_bind, error_bind]

/-- C9 (witness): a single empty record (0 fields). -/
theorem record_length_check_first_witness :
    goRows (fun _ _ => 0) [] [] [] = .ok ([], []) ∧
    ([] : List Field).length ≠ 46 ∧
    read_from_csv (fun _ _ => 0) [[]] =
      .error (.IncorrectRecordLength 0 46) :=
  ⟨rfl, by decide,
    record_length_check_first (fun _ _ => 0) [] [] [] [] [] rfl (by decide)⟩

/-- C10: every successfully ingested record yields a waypoint with
`turn_mode = 0`, `repeat_actions = 1`, `stay_time = 3`, `max_reach_time = 0`;
every mission produced by ingestion carries `MissionConfig::default`, which
is heading mode Manual, finish action Rth, path mode StraightLines, cruising
speed 8, RC speed 14, repeat count 1, version 11, and no photo interval. -/
theorem ingestion_defaults :
    (∀ (hdg : Coordinate → Coordinate → ℚ) (pois : List POI)
      (record : List Field) (w : Waypoint) (ps' : List POI),
      parseRow hdg pois record = .ok (w, ps') →
      w.turn_mode = 0 ∧ w.repeat_actions = 1 ∧ w.stay_time = 3 ∧
        w.max_reach_time = 0) ∧
    (∀ (hdg : Coordinate → Coordinate → ℚ) (records : List (List Field))
      (m : LitchiMission), read_from_csv hdg records = .ok m →
      m.config = MissionConfig.default) ∧
    MissionConfig.default =
      ⟨.Manual, .Rth, .StraightLines, 8, 14, 1, 11, none⟩ := by
  refine ⟨?_, ?_, rfl⟩
  · intro hdg pois record w ps' h
    rw [parseRow] at h
    by_cases hlen : record.length ≠ 46
    · rw [if_pos hlen] at h
      exact absurd h (by simp)
    · rw [if_neg hlen] at h
      simp only [except_bind_ok] at h
      obtain ⟨a1, -, a2, -, a3, -, a4, -, a5, -, a6, -, a7, -, a8, -, a9,
        -, a10, -, a11, -, a12, -, a13, -, a14, -, a15, -, a16, -, g1, -,
        g2, -, as, -, g3, -, pr, -, h⟩ := h
      obtain ⟨pi, ps''⟩ := pr
      simp only [Except.ok.injEq, Prod.mk.injEq] at h
      rw [← h.1]
      exact ⟨rfl, rfl, rfl, rfl⟩
  · intro hdg records m h
    rw [read_from_csv_eq, except_bind_ok] at h
    obtain ⟨⟨ws, ps⟩, -, h⟩ := h
    simp only [LitchiMission.new] at h
    by_cases hv : LitchiMission.validate ⟨ws, ps, MissionConfig.default⟩ =
        true
    · rw [if_pos hv] at h
      simp only [Except.ok.injEq] at h
      rw [← h]
    · rw [if_neg hv] at h
      exact absurd h (by simp)

/-- C3 (witness): `recPoi` ingested against the already-collected `poiFix`:
the stored heading is the bearing function's value, not the parsed 4. -/
theorem heading_override_on_poi_witness :
    parseRow hdg0 [poiFix] recPoi = .ok (wPoi, [poiFix]) ∧
    ((6 : ℚ) ≠ 0 ∧ (5 : ℚ) ≠ 0 ∧ (7 : ℚ) ≠ 0) ∧
    wPoi.heading = hdg0 ⟨1, 2⟩ ⟨5, 6⟩ :=
  ⟨rfl, ⟨by norm_num, by norm_num, by norm_num⟩,
    (heading_override_on_poi hdg0 [poiFix] 1 2 3 4 5 6 .Disabled 7
      sentinelActs .Absolute 8 5 6 7 .Absolute 0 0 (fun _ _ => Or.inl rfl)
      wPoi [poiFix] rfl).1 ⟨by norm_num, by norm_num, by norm_num⟩⟩

/-- C8 (witness): with both intervals positive the time interval wins. -/
theorem photo_interval_resolution_witness :
    parseRow hdg0 [] recPhoto = .ok (wPhoto, []) ∧
    wPhoto.photo_interval = if (9 : ℚ) > 0 then some (.Time 9)
      else if (3 : ℚ) > 0 then some (.Distance 3) else none :=
  ⟨rfl, photo_interval_resolution hdg0 [] 1 2 3 4 5 6 .Disabled 7
    sentinelActs .Absolute 8 0 0 0 .Absolute 9 3 (fun _ _ => Or.inl rfl)
    wPhoto [] rfl⟩

/-- C7 (witness): the decode table at param 0, a concrete decodable row
(all sentinel slots, empty action list), and the invalid code 7 aborting
with `InvalidActionType 7`. -/
theorem action_slot_decoding_witness :
    (actionFromCode (-1) 0 = .ok none ∧
      ¬ ValidType 9 ∧ actionFromCode 9 0 = .error (.InvalidActionType 9)) ∧
    (parseRow hdg0 [] recNoPoi = .ok (wNoPoi, []) ∧
      wNoPoi.actions = mkActions sentinelActs ∧
      wNoPoi.actions.length ≤ 15) ∧
    ((0 : Nat) < 15 ∧ ¬ ValidType (badActs 0).1 ∧
      parseRow hdg0 [] recBadAct = .error (.InvalidActionType 7)) :=
  ⟨⟨(action_slot_decoding.1 0).1, by decide,
      (action_slot_decoding.1 0).2.2.2.2.2.2.2 9 (by decide)⟩,
    ⟨rfl,
      (action_slot_decoding.2.1 hdg0 [] 1 2 3 4 5 6 .Disabled 7
        sentinelActs .Absolute 8 0 0 0 .Absolute 0 0
        (fun _ _ => Or.inl rfl) wNoPoi [] rfl).1,
      (action_slot_decoding.2.1 hdg0 [] 1 2 3 4 5 6 .Disabled 7
        sentinelActs .Absolute 8 0 0 0 .Absolute 0 0
        (fun _ _ => Or.inl rfl) wNoPoi [] rfl).2⟩,
    ⟨by decide, by decide,
      action_slot_decoding.2.2 hdg0 [] 1 2 3 4 5 6 .Disabled 7 badActs
        .Absolute 8 0 0 0 .Absolute 0 0 0 (by decide) (by decide)
        (fun i hi => absurd hi (by omega))⟩⟩

/-- C10 (witness): the concrete row `recNoPoi` and its one-row mission. -/
theorem ingestion_defaults_witness :
    (parseRow hdg0 [] recNoPoi = .ok (wNoPoi, []) ∧
      wNoPoi.turn_mode = 0 ∧ wNoPoi.repeat_actions = 1 ∧
      wNoPoi.stay_time = 3 ∧ wNoPoi.max_reach_time = 0) ∧
    (read_from_csv hdg0 [recNoPoi] = .ok mNoPoi ∧
      mNoPoi.config = MissionConfig.default) :=
  ⟨⟨rfl, (ingestion_defaults.1 hdg0 [] recNoPoi wNoPoi [] rfl).1,
      (ingestion_defaults.1 hdg0 [] recNoPoi wNoPoi [] rfl).2.1,
      (ingestion_defaults.1 hdg0 [] recNoPoi wNoPoi [] rfl).2.2.1,
      (ingestion_defaults.1 hdg0 [] recNoPoi wNoPoi [] rfl).2.2.2⟩,
    ⟨rfl, ingestion_defaults.2.1 hdg0 [recNoPoi] mNoPoi rfl⟩⟩

end Litchi
